import Mathlib

/-!
# Verification of the DeBERTa disentangled self-attention core

Shallow embedding of `src/deberta/attention.rs` (struct
`DisentangledSelfAttention` and its methods) over an executable tensor
model with exact rational entries in place of IEEE floats.  The dense-array
engine (`tch`) is an external collaborator of the module; it is modelled
here by a small executable library whose operations follow the documented
`tch`/PyTorch semantics on the shapes this module uses.  Floating-point
`sqrt` and dropout sampling are capabilities the core consumes, so they
are parameters of the embedding (`Env`); every theorem below holds for an
arbitrary instantiation.

A Rust `panic!`/`unwrap` on `None` is modelled by returning `none` of an
outer `Option`, while a returned `Err` is `Except.error` inside `some`.
-/

/-- Scalar element kinds carried by tensors (`tch::Kind`); only the two
kinds this module distinguishes are modelled. -/
inductive Kind
  | int64
  | float
deriving DecidableEq

/-- Device placement (`tch::Device`); placement never affects values here. -/
inductive Device
  | Cpu
deriving DecidableEq

/-- Number of elements of a shape (row-major layout). -/
def shapeProd (s : List Nat) : Nat := s.foldr (fun a b => a * b) 1

/-- Row-major flat offset of a multi-index inside a shape. -/
def flatIndex : List Nat → List Nat → Nat
  | _ :: ds, i :: is => i * shapeProd ds + flatIndex ds is
  | _, _ => 0

/-- Multi-index corresponding to a row-major flat offset. -/
def unflatten : List Nat → Nat → List Nat
  | [], _ => []
  | d :: ds, n => (n / shapeProd ds) % d :: unflatten ds (n % shapeProd ds)

/-- The multi-index lies pointwise inside the shape. -/
def inBounds : List Nat → List Nat → Bool
  | [], [] => true
  | d :: ds, i :: is => decide (i < d) && inBounds ds is
  | _, _ => false

/-- Insert an element at a position (used for `unsqueeze`). -/
def insertAt {α : Type} : Nat → α → List α → List α
  | 0, a, l => a :: l
  | _ + 1, a, [] => [a]
  | p + 1, a, x :: xs => x :: insertAt p a xs

/-- Remove the element at a position (inverse of `insertAt`). -/
def removeAt {α : Type} : Nat → List α → List α
  | _, [] => []
  | 0, _ :: xs => xs
  | p + 1, x :: xs => x :: removeAt p xs

/-- First position of a value in a list (rank indices are never missing
in the uses below). -/
def idxOfNat : List Nat → Nat → Nat
  | [], _ => 0
  | x :: xs, j => if x = j then 0 else idxOfNat xs j + 1

/-- Exchange the entries at two positions. -/
def swapIdx (p q : Nat) (l : List Nat) : List Nat :=
  (l.set p (l.getD q 0)).set q (l.getD p 0)

/-- Resolve a possibly negative dimension argument against a rank. -/
def resolveDim (rank : Nat) (d : Int) : Nat :=
  if d < 0 then ((rank : Int) + d).toNat else d.toNat

/-- Resolve a possibly negative dimension argument for an insertion
position (`unsqueeze` counts `rank + 1` slots). -/
def resolveDimIns (rank : Nat) (d : Int) : Nat :=
  if d < 0 then ((rank : Int) + 1 + d).toNat else d.toNat

/-- Executable stand-in for `tch::Tensor`: shape, element kind, and
row-major data with exact rational entries. -/
structure Tensor where
  shape : List Nat
  kind : Kind
  data : List ℚ
deriving DecidableEq

/-- Build a tensor from an entry function (row-major materialisation). -/
def Tensor.ofFn (k : Kind) (s : List Nat) (f : List Nat → ℚ) : Tensor :=
  ⟨s, k, (List.range (shapeProd s)).map (fun n => f (unflatten s n))⟩

/-- Entry of a tensor at a multi-index (0 outside the data). -/
def Tensor.entry (t : Tensor) (idx : List Nat) : ℚ :=
  t.data.getD (flatIndex t.shape idx) 0

/-- `Tensor::size()` — the shape as signed integers, as `tch` reports it. -/
def Tensor.size (t : Tensor) : List Int := t.shape.map (fun d => (d : Int))

/-- `Tensor::dim()` — the rank. -/
def Tensor.dim (t : Tensor) : Nat := t.shape.length

/-- `Tensor::device()`. -/
def Tensor.device (_ : Tensor) : Device := Device.Cpu

/-- `Tensor::new()` — the storage-free empty tensor. -/
def Tensor.new : Tensor := ⟨[0], Kind.float, []⟩

/-- `Tensor::arange(n)` — `0, 1, …, n-1` of the given kind. -/
def Tensor.arange (n : Int) (k : Kind) : Tensor :=
  Tensor.ofFn k [n.toNat] (fun idx => (idx.getD 0 0 : ℚ))

/-- `Tensor::zeros`. -/
def Tensor.zeros (s : List Nat) (k : Kind) : Tensor :=
  Tensor.ofFn k s (fun _ => 0)

/-- `Tensor::unsqueeze(d)` — insert a singleton axis. -/
def Tensor.unsqueeze (t : Tensor) (d : Int) : Tensor :=
  let p := resolveDimIns t.shape.length d
  Tensor.ofFn t.kind (insertAt p 1 t.shape) (fun idx => t.entry (removeAt p idx))

/-- Resolve a `view` target shape, expanding a single `-1` entry. -/
def resolveViewShape (numel : Nat) (ns : List Int) : List Nat :=
  let known := ns.foldr (fun a b => if a < 0 then b else a.toNat * b) 1
  ns.map (fun a => if a < 0 then numel / known else a.toNat)

/-- `Tensor::view` — reinterpret the row-major data in a new shape. -/
def Tensor.view (t : Tensor) (ns : List Int) : Tensor :=
  let s := resolveViewShape (shapeProd t.shape) ns
  Tensor.ofFn t.kind s (fun idx => t.data.getD (flatIndex s idx) 0)

/-- `Tensor::permute`. -/
def Tensor.permute (t : Tensor) (perm : List Nat) : Tensor :=
  Tensor.ofFn t.kind (perm.map (fun p => t.shape.getD p 1))
    (fun idx => t.entry ((List.range t.shape.length).map
      (fun j => idx.getD (idxOfNat perm j) 0)))

/-- `Tensor::transpose(d1, d2)`. -/
def Tensor.transpose (t : Tensor) (d1 d2 : Int) : Tensor :=
  let p := resolveDim t.shape.length d1
  let q := resolveDim t.shape.length d2
  Tensor.ofFn t.kind (swapIdx p q t.shape) (fun idx => t.entry (swapIdx p q idx))

/-- `Tensor::tr()` — matrix transpose of a rank-2 tensor. -/
def Tensor.tr (t : Tensor) : Tensor := t.transpose 0 1

/-- `Tensor::repeat` for a repeat vector of the tensor's own rank. -/
def Tensor.repeatDims (t : Tensor) (reps : List Nat) : Tensor :=
  Tensor.ofFn t.kind (List.zipWith (fun r d => r * d) reps t.shape)
    (fun idx => t.entry (List.zipWith (fun i d => i % d) idx t.shape))

/-- `Tensor::slice(dim, start, end, step)` with the nonnegative bounds and
positive step this module uses. -/
def Tensor.slice (t : Tensor) (dim start stop step : Int) : Tensor :=
  let p := resolveDim t.shape.length dim
  let d := t.shape.getD p 0
  let st := min start.toNat d
  let en := min stop.toNat d
  let len := (en - st + step.toNat - 1) / step.toNat
  Tensor.ofFn t.kind (t.shape.set p len)
    (fun idx => t.entry (idx.set p (st + idx.getD p 0 * step.toNat)))

/-- `Tensor::chunk(n, dim)` — split into `n` slices of ceil-size pieces
(an even split whenever `n` divides the dimension, as in every use here). -/
def Tensor.chunk (t : Tensor) (n : Int) (dim : Int) : List Tensor :=
  let p := resolveDim t.shape.length dim
  let d := t.shape.getD p 0
  let cs := (d + n.toNat - 1) / n.toNat
  (List.range n.toNat).map
    (fun i => t.slice (p : Int) ((i * cs : Nat) : Int) ((min ((i + 1) * cs) d : Nat) : Int) 1)

/-- Concatenate two tensors along axis `p`. -/
def catTwo (p : Nat) (a b : Tensor) : Tensor :=
  let da := a.shape.getD p 0
  Tensor.ofFn a.kind (a.shape.set p (da + b.shape.getD p 0))
    (fun idx => if idx.getD p 0 < da then a.entry idx
      else b.entry (idx.set p (idx.getD p 0 - da)))

/-- `Tensor::cat(tensors, dim)`. -/
def Tensor.cat (ts : List Tensor) (dim : Int) : Tensor :=
  match ts with
  | [] => Tensor.new
  | h :: rest => rest.foldl (catTwo (resolveDim h.shape.length dim)) h

/-- `Tensor::select(dim, i)` — fix one axis. -/
def Tensor.select (t : Tensor) (dim i : Int) : Tensor :=
  let p := resolveDim t.shape.length dim
  Tensor.ofFn t.kind (removeAt p t.shape)
    (fun idx => t.entry (insertAt p i.toNat idx))

/-- Right-aligned broadcast source index: keep the trailing coordinates and
wrap each by the source dimension (a size-1 axis therefore reads entry 0). -/
def bcIdx (s : List Nat) (idx : List Nat) : List Nat :=
  List.zipWith (fun i d => i % d) (idx.drop (idx.length - s.length)) s

/-- Broadcast combination of two dimensions lists, aligned at the right
(valid operands have equal or 1 dims, so `max` is the broadcast size). -/
def bcDims : List Nat → List Nat → List Nat
  | [], l => l
  | a :: as, [] => a :: as
  | a :: as, b :: bs => max a b :: bcDims as bs

/-- Broadcast result shape of two shapes. -/
def broadcastShapes (s1 s2 : List Nat) : List Nat :=
  (bcDims s1.reverse s2.reverse).reverse

/-- Result kind of a binary operation (`tch` type promotion). -/
def promoteKind : Kind → Kind → Kind
  | Kind.int64, Kind.int64 => Kind.int64
  | _, _ => Kind.float

/-- Elementwise binary operation with broadcasting. -/
def Tensor.binop (f : ℚ → ℚ → ℚ) (a b : Tensor) : Tensor :=
  let s := broadcastShapes a.shape b.shape
  Tensor.ofFn (promoteKind a.kind b.kind) s
    (fun idx => f (a.entry (bcIdx a.shape idx)) (b.entry (bcIdx b.shape idx)))

/-- Elementwise addition with broadcasting (`Tensor + Tensor`). -/
def Tensor.add (a b : Tensor) : Tensor := Tensor.binop (fun x y => x + y) a b

/-- Elementwise subtraction with broadcasting (`Tensor - Tensor`). -/
def Tensor.sub (a b : Tensor) : Tensor := Tensor.binop (fun x y => x - y) a b

instance : Add Tensor := ⟨Tensor.add⟩

instance : Sub Tensor := ⟨Tensor.sub⟩

/-- Elementwise map (scalar operations). -/
def Tensor.map1 (f : ℚ → ℚ) (t : Tensor) : Tensor :=
  Tensor.ofFn t.kind t.shape (fun idx => f (t.entry idx))

/-- `Tensor + scalar`. -/
def Tensor.addScalar (t : Tensor) (c : ℚ) : Tensor := t.map1 (fun x => x + c)

/-- `Tensor / scalar`. -/
def Tensor.divScalar (t : Tensor) (c : ℚ) : Tensor := t.map1 (fun x => x / c)

/-- Elementwise negation (`-Tensor`). -/
def Tensor.neg (t : Tensor) : Tensor := t.map1 (fun x => -x)

instance : Neg Tensor := ⟨Tensor.neg⟩

/-- `Tensor::clamp(lo, hi)` — `min (max x lo) hi` elementwise. -/
def Tensor.clampS (t : Tensor) (lo hi : ℚ) : Tensor :=
  t.map1 (fun x => min (max x lo) hi)

/-- Dimension counted from the end of a shape. -/
def dimFromEnd (s : List Nat) (k : Nat) : Nat := s.getD (s.length - 1 - k) 1

/-- Rational value of an index tensor entry as a gather index. -/
def qToNat (q : ℚ) : Nat := q.num.toNat

/-- `Tensor::gather(dim, index, sparse_grad)` — replace the coordinate on
`dim` by the value read from `index` at the same position. -/
def Tensor.gather (t : Tensor) (dim : Int) (index : Tensor) (_sparse_grad : Bool) : Tensor :=
  let p := resolveDim t.shape.length dim
  Tensor.ofFn t.kind index.shape
    (fun idx => t.entry (idx.set p (qToNat (index.entry idx))))

/-- `Tensor::expand(sizes, implicit)` — right-aligned broadcast of the
tensor to the requested sizes (`-1` keeps the original dimension). -/
def Tensor.expand (t : Tensor) (sizes : List Int) (_implicit : Bool) : Tensor :=
  let r := sizes.length
  let s := (List.range r).map (fun i =>
    let orig := if i + t.shape.length < r then 1
      else t.shape.getD (i + t.shape.length - r) 1
    let sz := sizes.getD i (-1)
    if sz < 0 then orig else sz.toNat)
  Tensor.ofFn t.kind s (fun idx => t.entry (bcIdx t.shape idx))

/-- Batched `Tensor::matmul`: contract the last axis of `a` with the
second-to-last of `b`, broadcasting the leading (batch) axes. -/
def Tensor.matmul (a b : Tensor) : Tensor :=
  let ab := a.shape.take (a.shape.length - 2)
  let bb := b.shape.take (b.shape.length - 2)
  let batch := broadcastShapes ab bb
  let m := dimFromEnd a.shape 1
  let pdim := dimFromEnd a.shape 0
  let n := dimFromEnd b.shape 0
  Tensor.ofFn (promoteKind a.kind b.kind) (batch ++ [m, n])
    (fun idx =>
      let bidx := idx.take (idx.length - 2)
      let x := idx.getD (idx.length - 2) 0
      let y := idx.getD (idx.length - 1) 0
      (List.range pdim).foldr
        (fun z acc =>
          a.entry (bcIdx ab bidx ++ [x, z]) * b.entry (bcIdx bb bidx ++ [z, y]) + acc)
        0)

/-- Modelled from the spec: the floating-point and sampling capabilities
the core consumes from outside (`f64::sqrt`, dropout noise); claims are
proved for every instantiation. -/
structure Env where
  sqrtQ : ℚ → ℚ
  dropoutQ : ℚ → Tensor → Tensor

/-- A trivial instantiation of `Env` used for concrete evaluations. -/
def idEnv : Env := ⟨fun x => x, fun _ t => t⟩

/-- Modelled from the spec: `XDropout` (crate::common::dropout, not under
`src/`) carries its probability; with `train = false` its application is
the identity — the activation/deactivation contract the spec names. -/
structure XDropout where
  p : ℚ
deriving DecidableEq

/-- `XDropout::new`. -/
def XDropout.new (prob : ℚ) : XDropout := ⟨prob⟩

/-- `Tensor::apply_t(dropout, train)`. -/
def XDropout.apply_t (env : Env) (d : XDropout) (t : Tensor) (train : Bool) : Tensor :=
  if train then env.dropoutQ d.p t else t

/-- Modelled from the spec: the crate error type (not under `src/`); only
the `ValueError` variant is constructed by this module. -/
inductive RustBertError
  | ValueError (msg : String)
deriving DecidableEq

/-- Modelled from the spec: the disentangled bias term kinds
(crate::deberta::deberta_model, not under `src/`). -/
inductive PositionAttentionType
  | c2p
  | p2c
  | p2p
deriving DecidableEq, BEq

/-- Modelled from the spec: the configured set of bias terms, with
membership test `has_type` and active-term count `len`. -/
structure PositionAttentionTypes where
  types : List PositionAttentionType
deriving DecidableEq

/-- `PositionAttentionTypes::has_type`. -/
def PositionAttentionTypes.has_type (s : PositionAttentionTypes)
    (t : PositionAttentionType) : Bool :=
  s.types.contains t

/-- `PositionAttentionTypes::len`. -/
def PositionAttentionTypes.len (s : PositionAttentionTypes) : Nat := s.types.length

/-- `PositionAttentionTypes::default()` — the empty set. -/
def PositionAttentionTypes.default : PositionAttentionTypes := ⟨[]⟩

/-- Modelled from the spec: the configuration fields this layer reads
(`DebertaConfig` lives outside `src/`). -/
structure DebertaConfig where
  hidden_size : Int
  num_attention_heads : Int
  hidden_dropout_prob : ℚ
  attention_probs_dropout_prob : ℚ
  relative_attention : Option Bool
  talking_head : Option Bool
  max_relative_positions : Option Int
  max_position_embeddings : Int
  pos_att_type : Option PositionAttentionTypes

/-- Modelled from the spec: `tch::nn::Linear` — a weight of shape
`(out_features, in_features)` and an optional bias. -/
structure Linear where
  ws : Tensor
  bs : Option Tensor
deriving DecidableEq

/-- `tch::nn::LinearConfig` (only the `bias` flag matters here);
`Default::default()` has `bias: true`. -/
structure LinearConfig where
  bias : Bool

/-- `LinearConfig::default()`. -/
def LinearConfig.default : LinearConfig := ⟨true⟩

/-- Modelled from the spec: the var store path — maps a variable name to
its entries.  `Path::var` always returns a tensor of exactly the requested
shape; for a loaded store the values are the trained ones, so the init
constant is not consulted here. -/
def VarStore : Type := String → List Nat → ℚ

/-- `Path::var(name, dims, init)`. -/
def varT (st : VarStore) (name : String) (shape : List Nat) : Tensor :=
  Tensor.ofFn Kind.float shape (st name)

/-- `nn::linear(path / name, in_dim, out_dim, config)`. -/
def nn_linear (st : VarStore) (name : String) (in_dim out_dim : Int)
    (cfg : LinearConfig) : Linear :=
  ⟨varT st (name ++ ".weight") [out_dim.toNat, in_dim.toNat],
   if cfg.bias then some (varT st (name ++ ".bias") [out_dim.toNat]) else none⟩

/-- `nn::Linear` module application: `x.matmul(ws.tr()) + bs`. -/
def Linear.forward (l : Linear) (x : Tensor) : Tensor :=
  match l.bs with
  | some b => x.matmul l.ws.tr + b
  | none => x.matmul l.ws.tr

/-- The `DisentangledSelfAttention` struct (attention.rs:21-34). -/
structure DisentangledSelfAttention where
  in_proj : Linear
  q_bias : Tensor
  v_bias : Tensor
  num_attention_heads : Int
  head_logits_proj : Option Linear
  head_weights_proj : Option Linear
  pos_proj : Option Linear
  pos_q_proj : Option Linear
  pos_att_type : PositionAttentionTypes
  max_relative_positions : Option Int
  pos_dropout : Option XDropout
  dropout : XDropout

/-- `DisentangledSelfAttention::new` (attention.rs:37-141).  Rust `i64`
division truncates toward zero, hence `Int.tdiv`. -/
def DisentangledSelfAttention.new (p : VarStore) (config : DebertaConfig) :
    DisentangledSelfAttention :=
  let num_attention_heads := config.num_attention_heads
  let attention_head_size := Int.tdiv config.hidden_size num_attention_heads
  let all_head_size := num_attention_heads * attention_head_size
  let linear_no_bias_config : LinearConfig := ⟨false⟩
  let in_proj := nn_linear p "in_proj" config.hidden_size (all_head_size * 3)
    linear_no_bias_config
  let q_bias := varT p "q_bias" [all_head_size.toNat]
  let v_bias := varT p "v_bias" [all_head_size.toNat]
  let pos_att_type := config.pos_att_type.getD PositionAttentionTypes.default
  let relative_attention := config.relative_attention.getD false
  let talking_head := config.talking_head.getD false
  let heads_projs : Option Linear × Option Linear :=
    if talking_head then
      (some (nn_linear p "head_logits_proj" num_attention_heads num_attention_heads
        linear_no_bias_config),
       some (nn_linear p "head_weights_proj" num_attention_heads num_attention_heads
        linear_no_bias_config))
    else (none, none)
  let rel : Option Int × Option XDropout × Option Linear × Option Linear :=
    if relative_attention then
      let m0 := config.max_relative_positions.getD (-1)
      let max_relative_positions :=
        if m0 < 1 then config.max_position_embeddings else m0
      let pos_dropout := some (XDropout.new config.hidden_dropout_prob)
      let pos_proj :=
        if pos_att_type.has_type PositionAttentionType.c2p
            || pos_att_type.has_type PositionAttentionType.p2p then
          some (nn_linear p "pos_proj" config.hidden_size all_head_size
            linear_no_bias_config)
        else none
      let pos_q_proj :=
        if pos_att_type.has_type PositionAttentionType.p2c
            || pos_att_type.has_type PositionAttentionType.p2p then
          some (nn_linear p "pos_q_proj" config.hidden_size all_head_size
            LinearConfig.default)
        else none
      (some max_relative_positions, pos_dropout, pos_proj, pos_q_proj)
    else (none, none, none, none)
  let dropout := XDropout.new config.attention_probs_dropout_prob
  ⟨in_proj, q_bias, v_bias, num_attention_heads, heads_projs.1, heads_projs.2,
   rel.2.2.1, rel.2.2.2, pos_att_type, rel.1, rel.2.1, dropout⟩

/-- `transpose_for_scores` (attention.rs:143-148): drop the last size,
extend with `[num_heads, -1]`, view, then permute `[0, 2, 1, 3]`. -/
def DisentangledSelfAttention.transpose_for_scores
    (self : DisentangledSelfAttention) (x : Tensor) : Tensor :=
  let new_shape := x.size.dropLast ++ [self.num_attention_heads, -1]
  (x.view new_shape).permute [0, 2, 1, 3]

/-- `DisentangledSelfAttention::linear` (attention.rs:150-156). -/
def DisentangledSelfAttention.linear (_self : DisentangledSelfAttention)
    (weights : Tensor) (bias : Option Tensor) (x : Tensor) : Tensor :=
  match bias with
  | some b => x.matmul weights.tr + b
  | none => x.matmul weights.tr

/-- `build_relative_position` (attention.rs:158-163). -/
def DisentangledSelfAttention.build_relative_position
    (_self : DisentangledSelfAttention) (query_size key_size : Int)
    (_device : Device) : Tensor :=
  let q_ids := Tensor.arange query_size Kind.int64
  let k_ids := Tensor.arange key_size Kind.int64
  let rel_pos_ids := q_ids.unsqueeze (-1) -
    (k_ids.view [1, -1]).repeatDims [query_size.toNat, 1]
  (rel_pos_ids.slice 0 0 query_size 1).unsqueeze 0

/-- `c2p_dynamic_expand` (attention.rs:165-181). -/
def DisentangledSelfAttention.c2p_dynamic_expand
    (_self : DisentangledSelfAttention) (c2p_pos query_layer relative_pos : Tensor) :
    Tensor :=
  let query_layer_size := query_layer.size
  c2p_pos.expand
    [query_layer_size.getD 0 1, query_layer_size.getD 1 1,
     query_layer_size.getD 2 1, relative_pos.size.getLast?.getD 1] true

/-- `p2c_dynamic_expand` (attention.rs:183-201). -/
def DisentangledSelfAttention.p2c_dynamic_expand
    (_self : DisentangledSelfAttention) (c2p_pos query_layer key_layer : Tensor) :
    Tensor :=
  let query_layer_size := query_layer.size
  let key_layer_size := key_layer.size.reverse
  c2p_pos.expand
    [query_layer_size.getD 0 1, query_layer_size.getD 1 1,
     key_layer_size.getD 1 1, key_layer_size.getD 1 1] true

/-- `pos_dynamic_expand` (attention.rs:203-218). -/
def DisentangledSelfAttention.pos_dynamic_expand
    (_self : DisentangledSelfAttention) (pos_index p2c_att key_layer : Tensor) :
    Tensor :=
  let new_shape := p2c_att.size.take 2
  let key_layer_size := key_layer.size.reverse
  let pos_index_size := pos_index.size.reverse
  pos_index.expand
    (new_shape ++ [pos_index_size.getD 1 1, key_layer_size.getD 1 1]) true

/-- The `attention_span` computation of `disentangled_att_bias`
(attention.rs:254-263), verbatim: it reads index 1 of the raw
(unreversed) `query_layer.size()` and `key_layer.size()`. -/
def attentionSpanCode (query_layer key_layer : Tensor)
    (max_relative_positions : Int) : Int :=
  min (max (query_layer.size.getD 1 0) (key_layer.size.getD 1 0))
    max_relative_positions

/-- Modelled from the spec:
`attention_span = min(max(query_len, key_len), max_relative_positions)`. -/
def attentionSpanSpec (query_len key_len max_relative_positions : Int) : Int :=
  min (max query_len key_len) max_relative_positions

/-- Rank normalisation of the relative-position table
(attention.rs:242-252). -/
def normalizeRelativePos (relative_pos : Tensor) : Except RustBertError Tensor :=
  match relative_pos.dim with
  | 2 => Except.ok ((relative_pos.unsqueeze 0).unsqueeze 0)
  | 3 => Except.ok (relative_pos.unsqueeze 1)
  | 4 => Except.ok relative_pos
  | d => Except.error (RustBertError.ValueError
      ("Expected relative position of dimensions 2, 3 or 4, got " ++ toString d))

/-- `c2p_pos` (attention.rs:289):
`(relative_pos + attention_span).clamp(0, attention_span * 2 - 1)`. -/
def c2pPos (relative_pos : Tensor) (attention_span : Int) : Tensor :=
  (relative_pos.addScalar (attention_span : ℚ)).clampS 0
    ((attention_span * 2 - 1 : Int) : ℚ)

/-- `p2c_pos` (attention.rs:313):
`(-r_pos + attention_span).clamp(0, attention_span * 2 - 1)`. -/
def p2cPos (r_pos : Tensor) (attention_span : Int) : Tensor :=
  ((-r_pos).addScalar (attention_span : ℚ)).clampS 0
    ((attention_span * 2 - 1 : Int) : ℚ)

/-- `disentangled_att_bias` (attention.rs:220-334).  The `unwrap()`s on
`max_relative_positions` (line 259) and the position projections
(lines 288, 301) panic on `None`; a panic is the outer `none`. -/
def DisentangledSelfAttention.disentangled_att_bias (env : Env)
    (self : DisentangledSelfAttention) (query_layer key_layer : Tensor)
    (relative_pos : Option Tensor) (relative_embeddings : Tensor)
    (scale_factor : ℚ) : Option (Except RustBertError Tensor) :=
  let key_layer_size := key_layer.size.reverse
  let query_layer_size := query_layer.size.reverse
  let calc_relative_pos : Option Tensor :=
    if relative_pos.isNone then
      some (self.build_relative_position (query_layer_size.getD 1 0)
        (key_layer_size.getD 1 0) query_layer.device)
    else none
  let relative_pos := relative_pos.getD (calc_relative_pos.getD Tensor.new)
  match normalizeRelativePos relative_pos with
  | Except.error e => some (Except.error e)
  | Except.ok relative_pos =>
    match self.max_relative_positions with
    | none => none
    | some max_relative_positions =>
      let attention_span := attentionSpanCode query_layer key_layer
        max_relative_positions
      let relative_embeddings :=
        (relative_embeddings.slice 0 (max_relative_positions - attention_span)
          (max_relative_positions + attention_span) 1).unsqueeze 0
      let pos_key_layer := self.pos_proj.map
        (fun pos_proj => self.transpose_for_scores (pos_proj.forward relative_embeddings))
      let pos_query_layer := self.pos_q_proj.map
        (fun pos_q_proj => self.transpose_for_scores (pos_q_proj.forward relative_embeddings))
      let score := Tensor.zeros [1] query_layer.kind
      let after_c2p : Option Tensor :=
        if self.pos_att_type.has_type PositionAttentionType.c2p then
          match pos_key_layer with
          | none => none
          | some pos_key_layer =>
            let c2p_att := query_layer.matmul (pos_key_layer.transpose (-1) (-2))
            let c2p_pos := c2pPos relative_pos attention_span
            let c2p_att := c2p_att.gather (-1)
              (self.c2p_dynamic_expand c2p_pos query_layer relative_pos) true
            some (score + c2p_att)
        else some score
      match after_c2p with
      | none => none
      | some score =>
        if self.pos_att_type.has_type PositionAttentionType.p2c then
          match pos_query_layer with
          | none => none
          | some pos_query_layer =>
            let pos_query_layer := pos_query_layer.divScalar
              (env.sqrtQ (((pos_query_layer.size.getLast?.getD 1 : Int) : ℚ) * scale_factor))
            let r_pos :=
              if query_layer_size.getD 1 0 ≠ key_layer_size.getD 1 0 then
                self.build_relative_position (key_layer_size.getD 1 0)
                  (key_layer_size.getD 1 0) query_layer.device
              else relative_pos
            let p2c_pos := p2cPos r_pos attention_span
            let p2c_att := ((key_layer.matmul (pos_query_layer.transpose (-1) (-2))).gather
              (-1) (self.p2c_dynamic_expand p2c_pos query_layer key_layer) true).transpose
              (-1) (-2)
            let p2c_att :=
              if query_layer_size.getD 1 0 ≠ key_layer_size.getD 1 0 then
                let pos_index := (relative_pos.select 3 0).unsqueeze (-1)
                p2c_att.gather (-2)
                  (self.pos_dynamic_expand pos_index p2c_att key_layer) true
              else p2c_att
            some (Except.ok (score + p2c_att))
        else some (Except.ok score)

/-- The query/key/value projection of `forward_t` (attention.rs:345-384).
On the standard path the Rust code pops the three chunks off the end of
the vector into the tuple `(query, key, value)`, so query receives the
LAST chunk and value the FIRST. -/
def DisentangledSelfAttention.qkvLayers (self : DisentangledSelfAttention)
    (hidden_states : Tensor) (query_states : Option Tensor) :
    Tensor × Tensor × Tensor :=
  match query_states with
  | some query_states =>
    let ws := self.in_proj.ws.chunk (self.num_attention_heads * 3) 0
    let query_key_value_weights := (List.range 3).map
      (fun k => Tensor.cat
        (((List.range self.num_attention_heads.toNat).map
          (fun i => ws.getD (i * 3 + k) Tensor.new))) 0)
    let query_layer := self.transpose_for_scores
      (self.linear (query_key_value_weights.getD 0 Tensor.new) none query_states)
    let key_layer := self.transpose_for_scores
      (self.linear (query_key_value_weights.getD 1 Tensor.new) none hidden_states)
    let value_layer := self.transpose_for_scores
      (self.linear (query_key_value_weights.getD 2 Tensor.new) none hidden_states)
    (query_layer, key_layer, value_layer)
  | none =>
    let qp := self.in_proj.forward hidden_states
    let layers := (self.transpose_for_scores qp).chunk 3 (-1)
    (layers.getD 2 Tensor.new, layers.getD 1 Tensor.new, layers.getD 0 Tensor.new)

/-- The learned-bias step of `forward_t` (attention.rs:386-389): add the
reshaped `q_bias` to the query layer and `v_bias` to the value layer; the
key layer is left as produced. -/
def DisentangledSelfAttention.qkvWithBias (self : DisentangledSelfAttention)
    (hidden_states : Tensor) (query_states : Option Tensor) :
    Tensor × Tensor × Tensor :=
  let qkv := self.qkvLayers hidden_states query_states
  let query_layer := qkv.1 +
    self.transpose_for_scores ((self.q_bias.unsqueeze 0).unsqueeze 0)
  let value_layer := qkv.2.2 +
    self.transpose_for_scores ((self.v_bias.unsqueeze 0).unsqueeze 0)
  (query_layer, qkv.2.1, value_layer)

/-- `forward_t` (attention.rs:336-410).  The function assembles
`attention_scores` but its final statement is `Ok(Tensor::new())`, so the
computed scores are discarded.  A panicking `unwrap` is the outer `none`. -/
def DisentangledSelfAttention.forward_t (env : Env)
    (self : DisentangledSelfAttention) (hidden_states : Tensor)
    (_attention_mask : Option Tensor) (query_states : Option Tensor)
    (relative_pos : Option Tensor) (relative_embeddings : Option Tensor)
    (train : Bool) : Option (Except RustBertError Tensor) :=
  let layers := self.qkvWithBias hidden_states query_states
  let query_layer := layers.1
  let key_layer := layers.2.1
  let _value_layer := layers.2.2
  let scale_factor : ℚ := 1 + (self.pos_att_type.len : ℚ)
  let scale := env.sqrtQ (((query_layer.size.getLast?.getD 1 : Int) : ℚ) * scale_factor)
  let query_layer := query_layer.divScalar scale
  let attention_scores := query_layer.matmul (key_layer.transpose (-1) (-2))
  match relative_embeddings with
  | some relative_embeddings =>
    match self.pos_dropout with
    | none => none
    | some pos_dropout =>
      let relative_embeddings := XDropout.apply_t env pos_dropout
        relative_embeddings train
      match self.disentangled_att_bias env query_layer key_layer relative_pos
        relative_embeddings scale_factor with
      | none => none
      | some (Except.error e) => some (Except.error e)
      | some (Except.ok relative_attention) =>
        let _attention_scores := attention_scores + relative_attention
        some (Except.ok Tensor.new)
  | none =>
    let _attention_scores := attention_scores
    some (Except.ok Tensor.new)

/-! ## Concrete fixtures used by witnesses and counterexamples -/

/-- A var store whose entries are all zero. -/
def zeroStore : VarStore := fun _ _ => 0

/-- A plain configuration: hidden 8, 2 heads, no relative attention. -/
def cfgPlain : DebertaConfig := ⟨8, 2, 0, 0, none, none, none, 512, none⟩

def attnPlain : DisentangledSelfAttention :=
  DisentangledSelfAttention.new zeroStore cfgPlain

def hiddenPlain : Tensor := Tensor.zeros [1, 3, 8] Kind.float

/-- Configuration with `relative_attention` explicitly false. -/
def cfgNoRel : DebertaConfig := ⟨4, 2, 0, 0, some false, none, none, 128, none⟩

/-- Configuration whose hidden size 5 is not divisible by its 2 heads. -/
def cfg52 : DebertaConfig := ⟨5, 2, 0, 0, none, none, none, 128, none⟩

def attn52 : DisentangledSelfAttention :=
  DisentangledSelfAttention.new zeroStore cfg52

/-- A query/key layer of shape (batch 1, heads 2, len 7, head size 4). -/
def q274 : Tensor := Tensor.zeros [1, 2, 7, 4] Kind.float

/-- Fused projection weight for 1 head of size 2 (rows: per-head slices
query `[1,0],[0,1]`, key `[2,0],[0,2]`, value `[3,0],[0,3]`). -/
def ws3 : Tensor := ⟨[6, 2], Kind.float, [1, 0, 0, 1, 2, 0, 0, 2, 3, 0, 0, 3]⟩

/-- Hidden states (batch 1, seq 1, hidden 2) with entries 1, 1. -/
def h3 : Tensor := ⟨[1, 1, 2], Kind.float, [1, 1]⟩

/-- A one-head layer with the fused weight `ws3`. -/
def attn3 : DisentangledSelfAttention :=
  ⟨⟨ws3, none⟩, ⟨[2], Kind.float, [5, 7]⟩, ⟨[2], Kind.float, [11, 13]⟩, 1,
   none, none, none, none, ⟨[]⟩, none, none, ⟨0⟩⟩

/-- Relative attention enabled with an empty position-attention-type set. -/
def cfgRelEmpty : DebertaConfig :=
  ⟨4, 2, 0, 0, some true, none, some 8, 128, some ⟨[]⟩⟩

def attnRelEmpty : DisentangledSelfAttention :=
  DisentangledSelfAttention.new zeroStore cfgRelEmpty

/-! ## Theorems -/

/-- `shapeProd` of a cons. -/
theorem shapeProd_cons (d : Nat) (ds : List Nat) :
    shapeProd (d :: ds) = d * shapeProd ds := rfl

/-- A shape admitting an in-bounds index has a positive element count. -/
theorem shapeProd_pos {s idx : List Nat} (h : inBounds s idx = true) :
    0 < shapeProd s := by
  induction s generalizing idx with
  | nil => simp [shapeProd]
  | cons d ds ih =>
    cases idx with
    | nil => simp [inBounds] at h
    | cons i is =>
      simp only [inBounds, Bool.and_eq_true, decide_eq_true_eq] at h
      exact Nat.mul_pos (by omega) (ih h.2)

/-- The flat offset of an in-bounds index is inside the data. -/
theorem flatIndex_lt {s idx : List Nat} (h : inBounds s idx = true) :
    flatIndex s idx < shapeProd s := by
  induction s generalizing idx with
  | nil =>
    cases idx with
    | nil => simp [flatIndex, shapeProd]
    | cons i is => simp [inBounds] at h
  | cons d ds ih =>
    cases idx with
    | nil => simp [inBounds] at h
    | cons i is =>
      simp only [inBounds, Bool.and_eq_true, decide_eq_true_eq] at h
      have h2 := ih h.2
      show i * shapeProd ds + flatIndex ds is < d * shapeProd ds
      calc i * shapeProd ds + flatIndex ds is
          < i * shapeProd ds + shapeProd ds := by omega
        _ = (i + 1) * shapeProd ds := by ring
        _ ≤ d * shapeProd ds := Nat.mul_le_mul_right _ h.1

/-- Unflattening inverts flattening on in-bounds indices. -/
theorem unflatten_flatIndex {s idx : List Nat} (h : inBounds s idx = true) :
    unflatten s (flatIndex s idx) = idx := by
  induction s generalizing idx with
  | nil =>
    cases idx with
    | nil => rfl
    | cons i is => simp [inBounds] at h
  | cons d ds ih =>
    cases idx with
    | nil => simp [inBounds] at h
    | cons i is =>
      simp only [inBounds, Bool.and_eq_true, decide_eq_true_eq] at h
      have hP := shapeProd_pos h.2
      have hf := flatIndex_lt h.2
      show (flatIndex (d :: ds) (i :: is) / shapeProd ds) % d ::
          unflatten ds (flatIndex (d :: ds) (i :: is) % shapeProd ds) = i :: is
      have hflat : flatIndex (d :: ds) (i :: is) = i * shapeProd ds + flatIndex ds is := rfl
      have hdiv : (i * shapeProd ds + flatIndex ds is) / shapeProd ds = i := by
        rw [Nat.add_comm, Nat.mul_comm, Nat.add_mul_div_left _ _ hP,
          Nat.div_eq_of_lt hf]
        omega
      have hmod : (i * shapeProd ds + flatIndex ds is) % shapeProd ds = flatIndex ds is := by
        rw [Nat.mul_comm, Nat.mul_add_mod, Nat.mod_eq_of_lt hf]
      rw [hflat, hdiv, hmod, Nat.mod_eq_of_lt h.1, ih h.2]

/-- The shape of `ofFn` is its shape argument. -/
theorem Tensor.shape_ofFn (k : Kind) (s : List Nat) (f : List Nat → ℚ) :
    (Tensor.ofFn k s f).shape = s := rfl

/-- The kind of `ofFn` is its kind argument. -/
theorem Tensor.kind_ofFn (k : Kind) (s : List Nat) (f : List Nat → ℚ) :
    (Tensor.ofFn k s f).kind = k := rfl

/-- Reading materialised `ofFn` data at a valid flat offset. -/
theorem Tensor.data_ofFn_getD (k : Kind) (s : List Nat) (f : List Nat → ℚ)
    (n : Nat) (h : n < shapeProd s) :
    (Tensor.ofFn k s f).data.getD n 0 = f (unflatten s n) := by
  simp [Tensor.ofFn, List.getD_eq_getElem?_getD, List.getElem?_map,
    List.getElem?_range, h]

/-- Entries of `ofFn` agree with the entry function on in-bounds indices. -/
theorem Tensor.entry_ofFn {k : Kind} {s : List Nat} {f : List Nat → ℚ}
    {idx : List Nat} (h : inBounds s idx = true) :
    (Tensor.ofFn k s f).entry idx = f idx := by
  have h1 := flatIndex_lt h
  show (Tensor.ofFn k s f).data.getD (flatIndex s idx) 0 = f idx
  rw [Tensor.data_ofFn_getD k s f _ h1, unflatten_flatIndex h]

/-- C1: for every input on which `forward_t` returns successfully, the
returned tensor is the empty `Tensor::new()` of shape `[0]` — not the
assembled attention-score tensor of shape
(batch, num_heads, query_len, key_len).  The function computes the scaled
query/key product and adds the position bias to `attention_scores`, but
its final statement is `Ok(Tensor::new())`, discarding them. -/
theorem c1_forward_t_discards_attention_scores (env : Env)
    (self : DisentangledSelfAttention) (hidden_states : Tensor)
    (attention_mask query_states relative_pos relative_embeddings : Option Tensor)
    (train : Bool) (t : Tensor)
    (h : self.forward_t env hidden_states attention_mask query_states
      relative_pos relative_embeddings train = some (Except.ok t)) :
    t = Tensor.new ∧ t.shape = [0] := by
  simp only [DisentangledSelfAttention.forward_t] at h
  split at h
  · split at h
    · exact absurd h (by simp)
    · split at h
      · exact absurd h (by simp)
      · exact absurd h (by simp)
      · simp only [Option.some.injEq, Except.ok.injEq] at h
        exact ⟨h.symm, by rw [← h]; rfl⟩
  · simp only [Option.some.injEq, Except.ok.injEq] at h
    exact ⟨h.symm, by rw [← h]; rfl⟩

/-- C1 witness: a successful concrete call, on which the theorem applies. -/
theorem c1_witness :
    attnPlain.forward_t idEnv hiddenPlain none none none none false
        = some (Except.ok Tensor.new)
      ∧ Tensor.new.shape = [0] :=
  ⟨rfl, (c1_forward_t_discards_attention_scores idEnv attnPlain hiddenPlain
    none none none none false Tensor.new rfl).2⟩

/-- C10: a layer built with `relative_attention = false` has
`max_relative_positions = None` and `pos_dropout = None`, and calling
`forward_t` with a relative-embeddings tensor then panics on the
`pos_dropout.as_ref().unwrap()` (modelled as `none`) instead of returning
a descriptive `Err`. -/
theorem c10_forward_t_panics_without_relative_attention (env : Env)
    (st : VarStore) (config : DebertaConfig)
    (h : config.relative_attention.getD false = false)
    (hidden_states : Tensor)
    (attention_mask query_states relative_pos : Option Tensor)
    (re : Tensor) (train : Bool) :
    (DisentangledSelfAttention.new st config).max_relative_positions = none
    ∧ (DisentangledSelfAttention.new st config).pos_dropout = none
    ∧ (DisentangledSelfAttention.new st config).forward_t env hidden_states
        attention_mask query_states relative_pos (some re) train = none := by
  have hmax : (DisentangledSelfAttention.new st config).max_relative_positions = none := by
    simp [DisentangledSelfAttention.new, h]
  have hpd : (DisentangledSelfAttention.new st config).pos_dropout = none := by
    simp [DisentangledSelfAttention.new, h]
  refine ⟨hmax, hpd, ?_⟩
  simp only [DisentangledSelfAttention.forward_t, hpd]

/-- C10 witness: the panic on a concrete layer and concrete call. -/
theorem c10_witness :
    (DisentangledSelfAttention.new zeroStore cfgNoRel).forward_t idEnv
      (Tensor.zeros [1, 2, 4] Kind.float) none none none
      (some (Tensor.zeros [256, 4] Kind.float)) false = none :=
  (c10_forward_t_panics_without_relative_attention idEnv zeroStore cfgNoRel rfl
    (Tensor.zeros [1, 2, 4] Kind.float) none none none
    (Tensor.zeros [256, 4] Kind.float) false).2.2

/-- C4 counterexample: with hidden_size = 5 and num_attention_heads = 2 the
layer does NOT fail: construction succeeds with the silently truncated
fused width 12 = 3 * 2 * (5 / 2) (instead of 15), and `forward_t`
proceeds to a successful return. -/
theorem c4_counterexample_no_error_on_indivisible :
    attn52.in_proj.ws.shape = [12, 5]
    ∧ attn52.forward_t idEnv (Tensor.zeros [1, 3, 5] Kind.float) none none none
        none false = some (Except.ok Tensor.new) :=
  ⟨rfl, rfl⟩

/-- C4 amended: construction never fails — `new` is total.  When
hidden_size is not divisible by num_attention_heads it silently uses
attention_head_size = hidden_size / num_heads (truncating i64 division),
so the fused projection weight has out-width
3 * num_heads * (hidden_size / num_heads) < 3 * hidden_size, and
`forward_t` proceeds to a successful return rather than erroring. -/
theorem c4_amended_silent_truncation (st : VarStore) (config : DebertaConfig)
    (env : Env) (hidden_states : Tensor)
    (attention_mask query_states relative_pos : Option Tensor) (train : Bool) :
    (DisentangledSelfAttention.new st config).in_proj.ws.shape
      = [(config.num_attention_heads
          * Int.tdiv config.hidden_size config.num_attention_heads * 3).toNat,
         config.hidden_size.toNat]
    ∧ (DisentangledSelfAttention.new st config).forward_t env hidden_states
        attention_mask query_states relative_pos none train
        = some (Except.ok Tensor.new) :=
  ⟨rfl, rfl⟩

/-- C2: the code's attention-span formula reads index 1 of the raw layer
sizes — the head axis.  At query/key layers of shape
(batch 1, heads 2, len 7, head 4) with max_relative_positions = 512 it
yields 2, while the specified
min(max(query_len, key_len), max_relative_positions) is 7. -/
theorem c2_attention_span_reads_head_axis :
    attentionSpanCode q274 q274 512 = 2
    ∧ attentionSpanSpec 7 7 512 = 7
    ∧ (2 : Int) ≠ 7 := by
  refine ⟨by decide, by decide, by decide⟩

/-- Elementwise maps preserve the shape. -/
theorem Tensor.shape_map1 (f : ℚ → ℚ) (t : Tensor) :
    (Tensor.map1 f t).shape = t.shape := rfl

/-- Entries of an elementwise map. -/
theorem Tensor.entry_map1 {f : ℚ → ℚ} {t : Tensor} {idx : List Nat}
    (h : inBounds t.shape idx = true) :
    (Tensor.map1 f t).entry idx = f (t.entry idx) := Tensor.entry_ofFn h

/-- C6: the position-bias engine's rank normalisation adds two leading
singleton axes at rank 2, one axis at position 1 at rank 3, passes rank 4
through unchanged, and returns the descriptive `ValueError` (producing no
tensor) exactly when the rank is outside {2, 3, 4}. -/
theorem c6_rank_normalisation (t : Tensor) :
    (t.dim = 2 → normalizeRelativePos t = Except.ok ((t.unsqueeze 0).unsqueeze 0)
      ∧ ((t.unsqueeze 0).unsqueeze 0).shape = 1 :: 1 :: t.shape) ∧
    (t.dim = 3 → normalizeRelativePos t = Except.ok (t.unsqueeze 1)
      ∧ (t.unsqueeze 1).shape = insertAt 1 1 t.shape) ∧
    (t.dim = 4 → normalizeRelativePos t = Except.ok t) ∧
    (t.dim ≠ 2 → t.dim ≠ 3 → t.dim ≠ 4 →
      normalizeRelativePos t = Except.error (RustBertError.ValueError
        ("Expected relative position of dimensions 2, 3 or 4, got "
          ++ toString t.dim))) := by
  refine ⟨?_, ?_, ?_, ?_⟩
  · intro h
    exact ⟨by simp [normalizeRelativePos, h], rfl⟩
  · intro h
    exact ⟨by simp [normalizeRelativePos, h], rfl⟩
  · intro h
    simp [normalizeRelativePos, h]
  · intro h2 h3 h4
    unfold normalizeRelativePos
    split
    · simp_all
    · simp_all
    · simp_all
    · simp_all

/-- C6 witness: the rank-2 case on a concrete 3×4 table. -/
theorem c6_witness :
    normalizeRelativePos (Tensor.zeros [3, 4] Kind.int64)
        = Except.ok (((Tensor.zeros [3, 4] Kind.int64).unsqueeze 0).unsqueeze 0)
      ∧ (((Tensor.zeros [3, 4] Kind.int64).unsqueeze 0).unsqueeze 0).shape
        = 1 :: 1 :: (Tensor.zeros [3, 4] Kind.int64).shape :=
  (c6_rank_normalisation (Tensor.zeros [3, 4] Kind.int64)).1 rfl

/-- C7: for any relative-position tensor (arbitrary, even extreme entries)
and any attention span ≥ 1, every entry of the clamped index tensors
`c2p_pos = clamp(relative_pos + span, 0, 2*span - 1)` and
`p2c_pos = clamp(-relative_pos + span, 0, 2*span - 1)` lies in
[0, 2*span - 1], hence is a valid gather index into the windowed
relative-embeddings slice of length 2*span. -/
theorem c7_clamped_indices_lie_in_window (t : Tensor) (attention_span : Int)
    (idx : List Nat) (hspan : 1 ≤ attention_span)
    (hidx : inBounds t.shape idx = true) :
    (0 ≤ (c2pPos t attention_span).entry idx
      ∧ (c2pPos t attention_span).entry idx
        ≤ ((attention_span * 2 - 1 : Int) : ℚ))
    ∧ (0 ≤ (p2cPos t attention_span).entry idx
      ∧ (p2cPos t attention_span).entry idx
        ≤ ((attention_span * 2 - 1 : Int) : ℚ)) := by
  have hspanQ : (1 : ℚ) ≤ (attention_span : ℚ) := by exact_mod_cast hspan
  have hhi : (0 : ℚ) ≤ ((attention_span * 2 - 1 : Int) : ℚ) := by
    push_cast
    linarith
  have h1 : (c2pPos t attention_span).entry idx
      = min (max ((t.addScalar (attention_span : ℚ)).entry idx) 0)
        ((attention_span * 2 - 1 : Int) : ℚ) := by
    unfold c2pPos Tensor.clampS
    exact Tensor.entry_map1 hidx
  have h2 : (p2cPos t attention_span).entry idx
      = min (max (((-t).addScalar (attention_span : ℚ)).entry idx) 0)
        ((attention_span * 2 - 1 : Int) : ℚ) := by
    unfold p2cPos Tensor.clampS
    exact Tensor.entry_map1 hidx
  constructor
  · constructor
    · rw [h1]
      exact le_min (le_max_right _ _) hhi
    · rw [h1]
      exact min_le_right _ _
  · constructor
    · rw [h2]
      exact le_min (le_max_right _ _) hhi
    · rw [h2]
      exact min_le_right _ _

/-- C7 witness: concrete clamp bounds at span 3 on a 2×2 table. -/
theorem c7_witness :
    (0 ≤ (c2pPos (Tensor.zeros [2, 2] Kind.int64) 3).entry [1, 0]
      ∧ (c2pPos (Tensor.zeros [2, 2] Kind.int64) 3).entry [1, 0]
        ≤ ((3 * 2 - 1 : Int) : ℚ))
    ∧ (0 ≤ (p2cPos (Tensor.zeros [2, 2] Kind.int64) 3).entry [1, 0]
      ∧ (p2cPos (Tensor.zeros [2, 2] Kind.int64) 3).entry [1, 0]
        ≤ ((3 * 2 - 1 : Int) : ℚ)) :=
  c7_clamped_indices_lie_in_window (Tensor.zeros [2, 2] Kind.int64) 3 [1, 0]
    (by decide) (by decide)

/-- Unfolding for the `Sub` instance. -/
theorem Tensor.sub_def (a b : Tensor) :
    a - b = Tensor.binop (fun x y => x - y) a b := rfl

/-- Unfolding for the `Add` instance. -/
theorem Tensor.add_def (a b : Tensor) :
    a + b = Tensor.binop (fun x y => x + y) a b := rfl

/-- Unfolding for the `Neg` instance. -/
theorem Tensor.neg_def (a : Tensor) : -a = Tensor.map1 (fun x => -x) a := rfl

/-- `bcDims` with an empty second operand. -/
theorem bcDims_nil_right (l : List Nat) : bcDims l [] = l := by
  cases l <;> rfl

/-- Shape of the built relative-position table: `(1, query_size, key_size)`
(with the degenerate `key_size ≤ 0` collapsing to 1 by broadcast). -/
theorem build_relative_position_shape (self : DisentangledSelfAttention)
    (query_size key_size : Int) (dev : Device) :
    (self.build_relative_position query_size key_size dev).shape
      = [1, query_size.toNat, max 1 key_size.toNat] := by
  simp [DisentangledSelfAttention.build_relative_position, Tensor.arange,
    Tensor.unsqueeze, Tensor.view, Tensor.repeatDims, Tensor.slice,
    Tensor.sub_def, Tensor.binop, Tensor.shape_ofFn, broadcastShapes, bcDims,
    insertAt, resolveDim, resolveDimIns, resolveViewShape, shapeProd]

/-- The built relative-position table always has rank 3. -/
theorem build_relative_position_dim (self : DisentangledSelfAttention)
    (query_size key_size : Int) (dev : Device) :
    (self.build_relative_position query_size key_size dev).dim = 3 := by
  simp [Tensor.dim, build_relative_position_shape]

/-- Rank normalisation of a rank-3 table. -/
theorem normalizeRelativePos_dim_three {t : Tensor} (h : t.dim = 3) :
    normalizeRelativePos t = Except.ok (t.unsqueeze 1) := by
  simp [normalizeRelativePos, h]

/-- The empty position-attention-type set contains no term kind. -/
theorem PositionAttentionTypes.has_type_empty (x : PositionAttentionType) :
    PositionAttentionTypes.has_type ⟨[]⟩ x = false := rfl

/-- Every entry of a zero tensor is zero (any index). -/
theorem Tensor.entry_zeros (s : List Nat) (k : Kind) (idx : List Nat) :
    (Tensor.zeros s k).entry idx = 0 := by
  unfold Tensor.zeros Tensor.ofFn Tensor.entry
  simp only [List.getD_eq_getElem?_getD, List.getElem?_map]
  cases (List.range (shapeProd s))[flatIndex s idx]? <;> simp

/-- An index in bounds has the length of the shape. -/
theorem inBounds_length {s idx : List Nat} (h : inBounds s idx = true) :
    idx.length = s.length := by
  induction s generalizing idx with
  | nil =>
    cases idx with
    | nil => rfl
    | cons i is => simp [inBounds] at h
  | cons d ds ih =>
    cases idx with
    | nil => simp [inBounds] at h
    | cons i is =>
      simp only [inBounds, Bool.and_eq_true] at h
      simp [ih h.2]

/-- A shape admitting an in-bounds index has only positive dimensions. -/
theorem inBounds_mem_pos {s idx : List Nat} (h : inBounds s idx = true) :
    ∀ a ∈ s, 0 < a := by
  induction s generalizing idx with
  | nil => simp
  | cons d ds ih =>
    cases idx with
    | nil => simp [inBounds] at h
    | cons i is =>
      simp only [inBounds, Bool.and_eq_true, decide_eq_true_eq] at h
      intro a ha
      rcases List.mem_cons.mp ha with rfl | ha2
      · omega
      · exact ih h.2 a ha2

/-- Broadcasting a tensor's own shape onto an in-bounds index is the
identity. -/
theorem bcIdx_self {s idx : List Nat} (h : inBounds s idx = true) :
    bcIdx s idx = idx := by
  have hl := inBounds_length h
  unfold bcIdx
  rw [hl, Nat.sub_self, List.drop_zero]
  induction s generalizing idx with
  | nil =>
    cases idx with
    | nil => rfl
    | cons i is => simp [inBounds] at h
  | cons d ds ih =>
    cases idx with
    | nil => rfl
    | cons i is =>
      simp only [inBounds, Bool.and_eq_true, decide_eq_true_eq] at h
      simp only [List.zipWith_cons_cons, Nat.mod_eq_of_lt h.1]
      rw [ih h.2 (by simpa using hl)]

/-- Shape of a zero tensor. -/
theorem Tensor.shape_zeros (s : List Nat) (k : Kind) :
    (Tensor.zeros s k).shape = s := rfl

/-- Adding the broadcast zero tensor `zeros([1])` leaves every entry of a
(positive-rank) tensor unchanged. -/
theorem add_zeros_entry (k : Kind) (scores : Tensor) (i : Nat) (is : List Nat)
    (h : inBounds scores.shape (i :: is) = true) :
    (scores + Tensor.zeros [1] k).entry (i :: is) = scores.entry (i :: is) := by
  rw [Tensor.add_def]
  rcases hs : scores.shape with _ | ⟨d, ds⟩
  · rw [hs] at h
    simp [inBounds] at h
  · have hrevne : scores.shape.reverse ≠ [] := by rw [hs]; simp
    obtain ⟨a, as, hrev⟩ := List.exists_cons_of_ne_nil hrevne
    have hapos : 0 < a := by
      have ham : a ∈ scores.shape := by
        rw [← List.mem_reverse, hrev]
        exact List.mem_cons_self a as
      exact inBounds_mem_pos h a ham
    have hS : broadcastShapes scores.shape [1] = scores.shape := by
      unfold broadcastShapes
      rw [hrev]
      show (max a 1 :: bcDims as []).reverse = scores.shape
      rw [bcDims_nil_right, Nat.max_eq_left hapos]
      rw [← hrev, List.reverse_reverse]
    have hIB : inBounds (broadcastShapes scores.shape [1]) (i :: is) = true := by
      rw [hS]; exact h
    unfold Tensor.binop
    simp only [Tensor.shape_zeros]
    rw [Tensor.entry_ofFn hIB, bcIdx_self h, Tensor.entry_zeros, add_zero]

/-- C8: when the position-attention-type set is empty (and the layer has a
max-relative-positions value, so the engine does not panic), the
position-bias engine returns exactly the zero tensor `zeros([1])`, and
adding that broadcast zero to any attention-score tensor leaves every
entry unchanged — the final scores equal the pure content-content term. -/
theorem c8_empty_pos_att_type_contributes_zero (env : Env)
    (self : DisentangledSelfAttention) (query_layer key_layer : Tensor)
    (relative_embeddings : Tensor) (scale_factor : ℚ) (m : Int)
    (hty : self.pos_att_type = ⟨[]⟩)
    (hmax : self.max_relative_positions = some m) :
    self.disentangled_att_bias env query_layer key_layer none
        relative_embeddings scale_factor
      = some (Except.ok (Tensor.zeros [1] query_layer.kind))
    ∧ (∀ (scores : Tensor) (i : Nat) (is : List Nat),
        inBounds scores.shape (i :: is) = true →
        (scores + Tensor.zeros [1] query_layer.kind).entry (i :: is)
          = scores.entry (i :: is)) := by
  constructor
  · have hb := normalizeRelativePos_dim_three
      (build_relative_position_dim self ((query_layer.size.reverse).getD 1 0)
        ((key_layer.size.reverse).getD 1 0) query_layer.device)
    simp only [DisentangledSelfAttention.disentangled_att_bias,
      Option.isNone_none, if_true, Option.getD_none, Option.getD_some, hb,
      hmax, hty, PositionAttentionTypes.has_type_empty, Bool.false_eq_true,
      if_false]
  · intro scores i is hsc
    exact add_zeros_entry (query_layer.kind) scores i is hsc

/-- C8 witness: a concrete relative-attention layer with empty
pos_att_type yields the zero bias, and adding it changes no score entry. -/
theorem c8_witness :
    attnRelEmpty.disentangled_att_bias idEnv
        (Tensor.zeros [1, 2, 3, 2] Kind.float) (Tensor.zeros [1, 2, 3, 2] Kind.float)
        none (Tensor.zeros [16, 4] Kind.float) 1
      = some (Except.ok (Tensor.zeros [1] (Tensor.zeros [1, 2, 3, 2] Kind.float).kind))
    ∧ ((Tensor.zeros [1, 2, 3, 3] Kind.float)
        + Tensor.zeros [1] (Tensor.zeros [1, 2, 3, 2] Kind.float).kind).entry [0, 1, 2, 2]
      = (Tensor.zeros [1, 2, 3, 3] Kind.float).entry [0, 1, 2, 2] :=
  have hc := c8_empty_pos_att_type_contributes_zero idEnv attnRelEmpty
    (Tensor.zeros [1, 2, 3, 2] Kind.float) (Tensor.zeros [1, 2, 3, 2] Kind.float)
    (Tensor.zeros [16, 4] Kind.float) 1 8 rfl rfl
  ⟨hc.1, hc.2 (Tensor.zeros [1, 2, 3, 3] Kind.float) 0 [1, 2, 2] (by decide)⟩

/-- Shape of `unsqueeze`. -/
theorem Tensor.shape_unsqueeze (t : Tensor) (d : Int) :
    (t.unsqueeze d).shape
      = insertAt (resolveDimIns t.shape.length d) 1 t.shape := rfl

/-- Entries of `unsqueeze`. -/
theorem Tensor.entry_unsqueeze (t : Tensor) (d : Int) {idx : List Nat}
    (h : inBounds (insertAt (resolveDimIns t.shape.length d) 1 t.shape) idx = true) :
    (t.unsqueeze d).entry idx
      = t.entry (removeAt (resolveDimIns t.shape.length d) idx) :=
  Tensor.entry_ofFn h

/-- Shape of `view`. -/
theorem Tensor.shape_view (t : Tensor) (ns : List Int) :
    (t.view ns).shape = resolveViewShape (shapeProd t.shape) ns := rfl

/-- Entries of `view` read the row-major data at the new flat offset. -/
theorem Tensor.entry_view (t : Tensor) (ns : List Int) {idx : List Nat}
    (h : inBounds (resolveViewShape (shapeProd t.shape) ns) idx = true) :
    (t.view ns).entry idx
      = t.data.getD (flatIndex (resolveViewShape (shapeProd t.shape) ns) idx) 0 :=
  Tensor.entry_ofFn h

/-- Shape of `repeatDims`. -/
theorem Tensor.shape_repeatDims (t : Tensor) (reps : List Nat) :
    (t.repeatDims reps).shape
      = List.zipWith (fun r d => r * d) reps t.shape := rfl

/-- Entries of `repeatDims`. -/
theorem Tensor.entry_repeatDims (t : Tensor) (reps : List Nat) {idx : List Nat}
    (h : inBounds (List.zipWith (fun r d => r * d) reps t.shape) idx = true) :
    (t.repeatDims reps).entry idx
      = t.entry (List.zipWith (fun i d => i % d) idx t.shape) :=
  Tensor.entry_ofFn h

/-- Shape of a broadcast binary operation. -/
theorem Tensor.shape_binop (f : ℚ → ℚ → ℚ) (a b : Tensor) :
    (Tensor.binop f a b).shape = broadcastShapes a.shape b.shape := rfl

/-- Entries of a broadcast binary operation. -/
theorem Tensor.entry_binop (f : ℚ → ℚ → ℚ) (a b : Tensor) {idx : List Nat}
    (h : inBounds (broadcastShapes a.shape b.shape) idx = true) :
    (Tensor.binop f a b).entry idx
      = f (a.entry (bcIdx a.shape idx)) (b.entry (bcIdx b.shape idx)) :=
  Tensor.entry_ofFn h

/-- Shape of `slice`. -/
theorem Tensor.shape_slice (t : Tensor) (dim start stop step : Int) :
    (t.slice dim start stop step).shape
      = t.shape.set (resolveDim t.shape.length dim)
          ((min stop.toNat (t.shape.getD (resolveDim t.shape.length dim) 0)
            - min start.toNat (t.shape.getD (resolveDim t.shape.length dim) 0)
            + step.toNat - 1) / step.toNat) := rfl

/-- Entries of `slice`. -/
theorem Tensor.entry_slice (t : Tensor) (dim start stop step : Int) {idx : List Nat}
    (h : inBounds (t.shape.set (resolveDim t.shape.length dim)
          ((min stop.toNat (t.shape.getD (resolveDim t.shape.length dim) 0)
            - min start.toNat (t.shape.getD (resolveDim t.shape.length dim) 0)
            + step.toNat - 1) / step.toNat)) idx = true) :
    (t.slice dim start stop step).entry idx
      = t.entry (idx.set (resolveDim t.shape.length dim)
          (min start.toNat (t.shape.getD (resolveDim t.shape.length dim) 0)
            + idx.getD (resolveDim t.shape.length dim) 0 * step.toNat)) :=
  Tensor.entry_ofFn h

/-- Shape of `permute`. -/
theorem Tensor.shape_permute (t : Tensor) (perm : List Nat) :
    (t.permute perm).shape = perm.map (fun p => t.shape.getD p 1) := rfl

/-- Entries of `permute`. -/
theorem Tensor.entry_permute (t : Tensor) (perm : List Nat) {idx : List Nat}
    (h : inBounds (perm.map (fun p => t.shape.getD p 1)) idx = true) :
    (t.permute perm).entry idx
      = t.entry ((List.range t.shape.length).map
          (fun j => idx.getD (idxOfNat perm j) 0)) :=
  Tensor.entry_ofFn h

/-- Shape of `transpose`. -/
theorem Tensor.shape_transpose (t : Tensor) (d1 d2 : Int) :
    (t.transpose d1 d2).shape
      = swapIdx (resolveDim t.shape.length d1) (resolveDim t.shape.length d2)
          t.shape := rfl

/-- Entries of `transpose`. -/
theorem Tensor.entry_transpose (t : Tensor) (d1 d2 : Int) {idx : List Nat}
    (h : inBounds (swapIdx (resolveDim t.shape.length d1)
          (resolveDim t.shape.length d2) t.shape) idx = true) :
    (t.transpose d1 d2).entry idx
      = t.entry (swapIdx (resolveDim t.shape.length d1)
          (resolveDim t.shape.length d2) idx) :=
  Tensor.entry_ofFn h

/-- Shape of `matmul`. -/
theorem Tensor.shape_matmul (a b : Tensor) :
    (a.matmul b).shape
      = broadcastShapes (a.shape.take (a.shape.length - 2))
          (b.shape.take (b.shape.length - 2))
        ++ [dimFromEnd a.shape 1, dimFromEnd b.shape 0] := rfl

/-- Entries of `matmul` as the contraction sum. -/
theorem Tensor.entry_matmul (a b : Tensor) {idx : List Nat}
    (h : inBounds (broadcastShapes (a.shape.take (a.shape.length - 2))
          (b.shape.take (b.shape.length - 2))
        ++ [dimFromEnd a.shape 1, dimFromEnd b.shape 0]) idx = true) :
    (a.matmul b).entry idx
      = (List.range (dimFromEnd a.shape 0)).foldr
          (fun z acc =>
            a.entry (bcIdx (a.shape.take (a.shape.length - 2))
                (idx.take (idx.length - 2))
              ++ [idx.getD (idx.length - 2) 0, z])
            * b.entry (bcIdx (b.shape.take (b.shape.length - 2))
                (idx.take (idx.length - 2))
              ++ [z, idx.getD (idx.length - 1) 0]) + acc) 0 :=
  Tensor.entry_ofFn h

/-- Entries of `catTwo`. -/
theorem entry_catTwo (p : Nat) (a b : Tensor) {idx : List Nat}
    (h : inBounds (a.shape.set p (a.shape.getD p 0 + b.shape.getD p 0)) idx = true) :
    (catTwo p a b).entry idx
      = if idx.getD p 0 < a.shape.getD p 0 then a.entry idx
        else b.entry (idx.set p (idx.getD p 0 - a.shape.getD p 0)) :=
  Tensor.entry_ofFn h

/-- `arange` entries are the index values. -/
theorem Tensor.entry_arange {n : Int} {k : Kind} {i : Nat} (h : i < n.toNat) :
    (Tensor.arange n k).entry [i] = (i : ℚ) := by
  unfold Tensor.arange
  rw [Tensor.entry_ofFn (by simp [inBounds, h])]
  simp


/-- C5: the relative-position builder returns an Int64 tensor of shape
(1, query_size, key_size) whose entry at (0, i, j) is `i - j`, for every
i < query_size and j < key_size; it is a pure function of the two sizes
(and the device) by construction. -/
theorem c5_build_relative_position_table (self : DisentangledSelfAttention)
    (query_size key_size : Int) (dev : Device) (i j : Nat)
    (hq : 0 < query_size) (hk : 0 < key_size)
    (hi : i < query_size.toNat) (hj : j < key_size.toNat) :
    (self.build_relative_position query_size key_size dev).shape
      = [1, query_size.toNat, key_size.toNat]
    ∧ (self.build_relative_position query_size key_size dev).kind = Kind.int64
    ∧ (self.build_relative_position query_size key_size dev).entry [0, i, j]
      = (i : ℚ) - (j : ℚ) := by
  have hmaxK : max 1 key_size.toNat = key_size.toNat := by omega
  refine ⟨?_, ?_, ?_⟩
  · rw [build_relative_position_shape, hmaxK]
  · rfl
  · have hB : ((Tensor.arange query_size Kind.int64).unsqueeze (-1)).shape
        = [query_size.toNat, 1] := rfl
    have hD : ((Tensor.arange key_size Kind.int64).view [1, -1]).shape
        = [1, key_size.toNat] := by
      rw [Tensor.shape_view]
      simp [Tensor.arange, Tensor.shape_ofFn, resolveViewShape, shapeProd]
    have hE : (((Tensor.arange key_size Kind.int64).view [1, -1]).repeatDims
          [query_size.toNat, 1]).shape
        = [query_size.toNat, key_size.toNat] := by
      rw [Tensor.shape_repeatDims, hD]
      simp
    have hbc : broadcastShapes
          ((Tensor.arange query_size Kind.int64).unsqueeze (-1)).shape
          (((Tensor.arange key_size Kind.int64).view [1, -1]).repeatDims
            [query_size.toNat, 1]).shape
        = [query_size.toNat, key_size.toNat] := by
      rw [hB, hE]
      simp [broadcastShapes, bcDims, hmaxK]
    have hF : ((Tensor.arange query_size Kind.int64).unsqueeze (-1)
          - ((Tensor.arange key_size Kind.int64).view [1, -1]).repeatDims
            [query_size.toNat, 1]).shape
        = [query_size.toNat, key_size.toNat] := by
      rw [Tensor.sub_def, Tensor.shape_binop, hbc]
    have hG : (((Tensor.arange query_size Kind.int64).unsqueeze (-1)
          - ((Tensor.arange key_size Kind.int64).view [1, -1]).repeatDims
            [query_size.toNat, 1]).slice 0 0 query_size 1).shape
        = [query_size.toNat, key_size.toNat] := by
      rw [Tensor.shape_slice, hF]
      simp [resolveDim]
    show ((((Tensor.arange query_size Kind.int64).unsqueeze (-1)
        - ((Tensor.arange key_size Kind.int64).view [1, -1]).repeatDims
          [query_size.toNat, 1]).slice 0 0 query_size 1).unsqueeze 0).entry
        [0, i, j] = (i : ℚ) - (j : ℚ)
    have hbR : inBounds (insertAt (resolveDimIns
          (((Tensor.arange query_size Kind.int64).unsqueeze (-1)
            - ((Tensor.arange key_size Kind.int64).view [1, -1]).repeatDims
              [query_size.toNat, 1]).slice 0 0 query_size 1).shape.length 0) 1
          (((Tensor.arange query_size Kind.int64).unsqueeze (-1)
            - ((Tensor.arange key_size Kind.int64).view [1, -1]).repeatDims
              [query_size.toNat, 1]).slice 0 0 query_size 1).shape) [0, i, j]
        = true := by
      rw [hG]
      simp [inBounds, resolveDimIns, insertAt, hi, hj]
    rw [Tensor.entry_unsqueeze _ 0 hbR]
    have hidx1 : removeAt (resolveDimIns
          (((Tensor.arange query_size Kind.int64).unsqueeze (-1)
            - ((Tensor.arange key_size Kind.int64).view [1, -1]).repeatDims
              [query_size.toNat, 1]).slice 0 0 query_size 1).shape.length 0)
          [0, i, j] = [i, j] := by
      rw [hG]
      rfl
    rw [hidx1]
    have hbG : inBounds (((Tensor.arange query_size Kind.int64).unsqueeze (-1)
          - ((Tensor.arange key_size Kind.int64).view [1, -1]).repeatDims
            [query_size.toNat, 1]).slice 0 0 query_size 1).shape [i, j]
        = true := by
      rw [hG]
      simp [inBounds, hi, hj]
    rw [Tensor.entry_slice _ 0 0 query_size 1
      (by rw [← Tensor.shape_slice]; exact hbG)]
    have hidx2 : [i, j].set (resolveDim
          ((Tensor.arange query_size Kind.int64).unsqueeze (-1)
            - ((Tensor.arange key_size Kind.int64).view [1, -1]).repeatDims
              [query_size.toNat, 1]).shape.length 0)
          (min (0 : Int).toNat
              (((Tensor.arange query_size Kind.int64).unsqueeze (-1)
                - ((Tensor.arange key_size Kind.int64).view [1, -1]).repeatDims
                  [query_size.toNat, 1]).shape.getD
                (resolveDim ((Tensor.arange query_size Kind.int64).unsqueeze (-1)
                  - ((Tensor.arange key_size Kind.int64).view [1, -1]).repeatDims
                    [query_size.toNat, 1]).shape.length 0) 0)
            + [i, j].getD (resolveDim
                ((Tensor.arange query_size Kind.int64).unsqueeze (-1)
                  - ((Tensor.arange key_size Kind.int64).view [1, -1]).repeatDims
                    [query_size.toNat, 1]).shape.length 0) 0
              * (1 : Int).toNat) = [i, j] := by
      rw [hF]
      simp [resolveDim]
    rw [hidx2]
    rw [Tensor.sub_def, Tensor.entry_binop _ _ _
      (by rw [hbc]; simp [inBounds, hi, hj])]
    have hbi1 : bcIdx ((Tensor.arange query_size Kind.int64).unsqueeze (-1)).shape
        [i, j] = [i, 0] := by
      rw [hB]
      simp [bcIdx, Nat.mod_eq_of_lt hi, Nat.mod_one]
    have hbi2 : bcIdx (((Tensor.arange key_size Kind.int64).view [1, -1]).repeatDims
          [query_size.toNat, 1]).shape [i, j] = [i, j] := by
      rw [hE]
      simp [bcIdx, Nat.mod_eq_of_lt hi, Nat.mod_eq_of_lt hj]
    rw [hbi1, hbi2]
    have hBe : ((Tensor.arange query_size Kind.int64).unsqueeze (-1)).entry [i, 0]
        = (i : ℚ) := by
      rw [Tensor.entry_unsqueeze _ (-1)
        (by simp [Tensor.arange, Tensor.shape_ofFn, inBounds, resolveDimIns,
          insertAt, hi])]
      exact Tensor.entry_arange hi
    have hEe : (((Tensor.arange key_size Kind.int64).view [1, -1]).repeatDims
          [query_size.toNat, 1]).entry [i, j] = (j : ℚ) := by
      rw [Tensor.entry_repeatDims _ _
        (by rw [← Tensor.shape_repeatDims, hE]; simp [inBounds, hi, hj])]
      have hzz : List.zipWith (fun a d => a % d) [i, j]
          ((Tensor.arange key_size Kind.int64).view [1, -1]).shape = [0, j] := by
        rw [hD]
        simp [Nat.mod_eq_of_lt hj, Nat.mod_one]
      rw [hzz]
      rw [Tensor.entry_view _ _
        (by rw [← Tensor.shape_view, hD]; simp [inBounds, hj])]
      have hrv : resolveViewShape
          (shapeProd (Tensor.arange key_size Kind.int64).shape) [1, -1]
          = [1, key_size.toNat] := by
        rw [← Tensor.shape_view]
        exact hD
      have hflat : flatIndex (resolveViewShape
            (shapeProd (Tensor.arange key_size Kind.int64).shape) [1, -1]) [0, j]
          = j := by
        rw [hrv]
        simp [flatIndex, shapeProd]
      rw [hflat]
      unfold Tensor.arange
      rw [Tensor.data_ofFn_getD _ _ _ _ (by simp [shapeProd]; omega)]
      have hu : unflatten [key_size.toNat] j = [j] := by
        simp [unflatten, shapeProd, Nat.mod_eq_of_lt hj]
      rw [hu]
      simp
    simp [hBe, hEe]

/-- C5 witness: the table at sizes (2, 3), entry (0, 1, 2) is -1. -/
theorem c5_witness :
    (attnPlain.build_relative_position 2 3 Device.Cpu).shape = [1, 2, 3]
    ∧ (attnPlain.build_relative_position 2 3 Device.Cpu).kind = Kind.int64
    ∧ (attnPlain.build_relative_position 2 3 Device.Cpu).entry [0, 1, 2]
      = (1 : ℚ) - (2 : ℚ) :=
  c5_build_relative_position_table attnPlain 2 3 Device.Cpu 1 2
    (by decide) (by decide) (by decide) (by decide)

/-- An in-range flat offset unflattens to an in-bounds index. -/
theorem inBounds_unflatten {s : List Nat} {n : Nat} (h : n < shapeProd s) :
    inBounds s (unflatten s n) = true := by
  induction s generalizing n with
  | nil => rfl
  | cons d ds ih =>
    have hd : 0 < d := by
      rcases Nat.eq_zero_or_pos d with h0 | h1
      · rw [h0] at h
        simp [shapeProd] at h
      · exact h1
    have hP : 0 < shapeProd ds := by
      rcases Nat.eq_zero_or_pos (shapeProd ds) with h0 | h1
      · rw [shapeProd_cons, h0, Nat.mul_zero] at h
        omega
      · exact h1
    show (decide ((n / shapeProd ds) % d < d) && _) = true
    simp [Nat.mod_lt _ hd, ih (Nat.mod_lt n hP)]

/-- Materialised data of `ofFn` at a valid flat offset, as an entry. -/
theorem Tensor.getD_data_ofFn_entry {k : Kind} {s : List Nat} {f : List Nat → ℚ}
    {n : Nat} (h : n < shapeProd s) :
    (Tensor.ofFn k s f).data.getD n 0
      = (Tensor.ofFn k s f).entry (unflatten s n) := by
  rw [Tensor.data_ofFn_getD _ _ _ _ h, Tensor.entry_ofFn (inBounds_unflatten h)]

/-- Data of an `unsqueeze` at a valid flat offset, as an entry. -/
theorem Tensor.data_getD_entry_unsqueeze (t : Tensor) (d : Int) {n : Nat}
    (h : n < shapeProd (t.unsqueeze d).shape) :
    (t.unsqueeze d).data.getD n 0
      = (t.unsqueeze d).entry (unflatten (t.unsqueeze d).shape n) :=
  Tensor.getD_data_ofFn_entry h

/-- `transpose_for_scores` of a doubly-unsqueezed bias vector of width
`H * d` has shape (1, H, 1, d), and its entry at (0, hh, 0, y) is the
bias entry at `hh * d + y`. -/
theorem tfs_bias_entry (self : DisentangledSelfAttention) (bias : Tensor)
    (H d : Nat) (hH : self.num_attention_heads = (H : Int))
    (hb : bias.shape = [H * d]) (hHpos : 0 < H) (hdpos : 0 < d)
    (hh y : Nat) (hhh : hh < H) (hy : y < d) :
    (self.transpose_for_scores ((bias.unsqueeze 0).unsqueeze 0)).shape
      = [1, H, 1, d]
    ∧ (self.transpose_for_scores ((bias.unsqueeze 0).unsqueeze 0)).entry
        [0, hh, 0, y]
      = bias.entry [hh * d + y] := by
  have hdiv : H * d / H = d := Nat.mul_div_cancel_left d hHpos
  have hu1 : (bias.unsqueeze 0).shape = [1, H * d] := by
    rw [Tensor.shape_unsqueeze, hb]
    rfl
  have hu2 : ((bias.unsqueeze 0).unsqueeze 0).shape = [1, 1, H * d] := by
    rw [Tensor.shape_unsqueeze, hu1]
    rfl
  have hsize : ((bias.unsqueeze 0).unsqueeze 0).size = [1, 1, ((H * d : Nat) : Int)] := by
    show ((bias.unsqueeze 0).unsqueeze 0).shape.map (fun a => (a : Int))
      = [1, 1, ((H * d : Nat) : Int)]
    rw [hu2]
    simp
  have hns : ((bias.unsqueeze 0).unsqueeze 0).size.dropLast
        ++ [self.num_attention_heads, -1] = [1, 1, (H : Int), -1] := by
    rw [hsize, hH]
    simp
  have hnum : shapeProd ((bias.unsqueeze 0).unsqueeze 0).shape = H * d := by
    rw [hu2]
    simp [shapeProd]
  have hv : (((bias.unsqueeze 0).unsqueeze 0).view [1, 1, (H : Int), -1]).shape
      = [1, 1, H, d] := by
    rw [Tensor.shape_view, hnum]
    have hHc : ¬((H : Int) < 0) := by omega
    simp [resolveViewShape, hdiv, hHc]
  have hp : ((((bias.unsqueeze 0).unsqueeze 0).view
        [1, 1, (H : Int), -1]).permute [0, 2, 1, 3]).shape = [1, H, 1, d] := by
    rw [Tensor.shape_permute, hv]
    simp
  have hT : self.transpose_for_scores ((bias.unsqueeze 0).unsqueeze 0)
      = (((bias.unsqueeze 0).unsqueeze 0).view
          [1, 1, (H : Int), -1]).permute [0, 2, 1, 3] := by
    unfold DisentangledSelfAttention.transpose_for_scores
    rw [hns]
  constructor
  · rw [hT, hp]
  · rw [hT]
    have hn : hh * d + y < H * d := by
      calc hh * d + y < hh * d + d := by omega
        _ = (hh + 1) * d := by ring
        _ ≤ H * d := Nat.mul_le_mul_right d hhh
    rw [Tensor.entry_permute _ _
      (by rw [← Tensor.shape_permute, hp]; simp [inBounds, hhh, hy])]
    have hidxp : (List.range (((bias.unsqueeze 0).unsqueeze 0).view
          [1, 1, (H : Int), -1]).shape.length).map
          (fun j => [0, hh, 0, y].getD (idxOfNat [0, 2, 1, 3] j) 0)
        = [0, 0, hh, y] := by
      rw [hv]
      rfl
    rw [hidxp]
    rw [Tensor.entry_view _ _
      (by rw [← Tensor.shape_view, hv]; simp [inBounds, hhh, hy])]
    have hrv : resolveViewShape
        (shapeProd ((bias.unsqueeze 0).unsqueeze 0).shape) [1, 1, (H : Int), -1]
        = [1, 1, H, d] := by
      rw [← Tensor.shape_view]
      exact hv
    have hflat : flatIndex (resolveViewShape
          (shapeProd ((bias.unsqueeze 0).unsqueeze 0).shape)
          [1, 1, (H : Int), -1]) [0, 0, hh, y] = hh * d + y := by
      rw [hrv]
      simp [flatIndex, shapeProd]
    rw [hflat]
    rw [Tensor.data_getD_entry_unsqueeze _ 0 (by rw [hnum]; exact hn)]
    have hunf : unflatten ((bias.unsqueeze 0).unsqueeze 0).shape (hh * d + y)
        = [0, 0, hh * d + y] := by
      rw [hu2]
      simp [unflatten, shapeProd, Nat.mod_one, Nat.div_one, Nat.mod_eq_of_lt hn]
    rw [hunf]
    rw [Tensor.entry_unsqueeze _ 0
      (by rw [← Tensor.shape_unsqueeze, hu2]; simp [inBounds, hn])]
    have hrm1 : removeAt (resolveDimIns (bias.unsqueeze 0).shape.length 0)
        [0, 0, hh * d + y] = [0, hh * d + y] := by
      rw [hu1]
      rfl
    rw [hrm1]
    rw [Tensor.entry_unsqueeze _ 0
      (by rw [← Tensor.shape_unsqueeze, hu1]; simp [inBounds, hn])]
    have hrm2 : removeAt (resolveDimIns bias.shape.length 0) [0, hh * d + y]
        = [hh * d + y] := by
      rw [hb]
      rfl
    rw [hrm2]

/-- Entrywise form of adding a (1, H, 1, d) tensor to a (b, H, s, d)
tensor: the addend broadcasts over the batch and sequence axes. -/
theorem entry_add_bias (a bb : Tensor) (b0 H s0 d : Nat)
    (ha : a.shape = [b0, H, s0, d]) (hbB : bb.shape = [1, H, 1, d])
    (i hh x y : Nat) (hi : i < b0) (hhh : hh < H) (hx : x < s0) (hy : y < d) :
    (a + bb).entry [i, hh, x, y]
      = a.entry [i, hh, x, y] + bb.entry [0, hh, 0, y] := by
  rw [Tensor.add_def]
  have hs0p : max s0 1 = s0 := by omega
  have hb0p : max b0 1 = b0 := by omega
  have hbs : broadcastShapes a.shape bb.shape = [b0, H, s0, d] := by
    rw [ha, hbB]
    simp [broadcastShapes, bcDims, hs0p, hb0p]
  have hIB : inBounds (broadcastShapes a.shape bb.shape) [i, hh, x, y] = true := by
    rw [hbs]
    simp [inBounds, hi, hhh, hx, hy]
  rw [Tensor.entry_binop _ _ _ hIB]
  have hia : bcIdx a.shape [i, hh, x, y] = [i, hh, x, y] :=
    bcIdx_self (by rw [ha]; simp [inBounds, hi, hhh, hx, hy])
  have hib : bcIdx bb.shape [i, hh, x, y] = [0, hh, 0, y] := by
    rw [hbB]
    simp [bcIdx, Nat.mod_one, Nat.mod_eq_of_lt hhh, Nat.mod_eq_of_lt hy]
  rw [hia, hib]

/-- C9: after the head-reshape, `forward_t` adds the reshaped learned
`q_bias` to the query layer and `v_bias` to the value layer (each entry
(i, hh, x, y) receives the bias entry `hh * head_size + y`, broadcast over
batch and sequence), while the key layer is returned exactly as produced
by the projection, with no additive bias. -/
theorem c9_bias_on_query_and_value_only (self : DisentangledSelfAttention)
    (hidden_states : Tensor) (query_states : Option Tensor)
    (b0 H s0 d b1 s1 : Nat)
    (hH : self.num_attention_heads = (H : Int))
    (hq0 : (self.qkvLayers hidden_states query_states).1.shape = [b0, H, s0, d])
    (hv0 : (self.qkvLayers hidden_states query_states).2.2.shape = [b1, H, s1, d])
    (hqb : self.q_bias.shape = [H * d])
    (hvb : self.v_bias.shape = [H * d]) :
    (self.qkvWithBias hidden_states query_states).2.1
      = (self.qkvLayers hidden_states query_states).2.1
    ∧ (∀ i hh x y, i < b0 → hh < H → x < s0 → y < d →
        (self.qkvWithBias hidden_states query_states).1.entry [i, hh, x, y]
          = (self.qkvLayers hidden_states query_states).1.entry [i, hh, x, y]
            + self.q_bias.entry [hh * d + y])
    ∧ (∀ i hh x y, i < b1 → hh < H → x < s1 → y < d →
        (self.qkvWithBias hidden_states query_states).2.2.entry [i, hh, x, y]
          = (self.qkvLayers hidden_states query_states).2.2.entry [i, hh, x, y]
            + self.v_bias.entry [hh * d + y]) := by
  refine ⟨rfl, ?_, ?_⟩
  · intro i hh x y hi hhh hx hy
    have hT := tfs_bias_entry self self.q_bias H d hH hqb (by omega) (by omega)
      hh y hhh hy
    show ((self.qkvLayers hidden_states query_states).1
        + self.transpose_for_scores ((self.q_bias.unsqueeze 0).unsqueeze 0)).entry
        [i, hh, x, y] = _
    rw [entry_add_bias _ _ b0 H s0 d hq0 hT.1 i hh x y hi hhh hx hy, hT.2]
  · intro i hh x y hi hhh hx hy
    have hT := tfs_bias_entry self self.v_bias H d hH hvb (by omega) (by omega)
      hh y hhh hy
    show ((self.qkvLayers hidden_states query_states).2.2
        + self.transpose_for_scores ((self.v_bias.unsqueeze 0).unsqueeze 0)).entry
        [i, hh, x, y] = _
    rw [entry_add_bias _ _ b1 H s1 d hv0 hT.1 i hh x y hi hhh hx hy, hT.2]

/-- C9 witness: on the concrete one-head layer, key passes through
unchanged and the query entry gains exactly its bias component. -/
theorem c9_witness :
    (attn3.qkvWithBias h3 none).2.1 = (attn3.qkvLayers h3 none).2.1
    ∧ (attn3.qkvWithBias h3 none).1.entry [0, 0, 0, 1]
      = (attn3.qkvLayers h3 none).1.entry [0, 0, 0, 1]
        + attn3.q_bias.entry [0 * 2 + 1] :=
  have hc := c9_bias_on_query_and_value_only attn3 h3 none 1 1 1 2 1 1
    (by decide) (by decide) (by decide) (by decide) (by decide)
  ⟨hc.1, hc.2.1 0 0 0 1 (by decide) (by decide) (by decide) (by decide)⟩

set_option maxHeartbeats 3200000 in
/-- C3: on the standard path the code pops the three chunks of the fused
projection off the END of the vector into the tuple (query, key, value),
so the query layer comes from the LAST third and the value layer from the
FIRST third — the reverse of the claim.  On the one-head layer `attn3`
(per-head fused rows: query [1,0],[0,1], key [2,0],[0,2], value
[3,0],[0,3]) with hidden states (1,1): the standard-path query entry is 3
(the value-projection output) while the incremental path — which
reassembles the same fused weight by taking slice `i*3+0` per head as the
query group — produces 1 for the query and 3 for the value on the very
same input, so the two paths of the same function contradict each other. -/
theorem c3_standard_path_swaps_query_and_value :
    (attn3.qkvLayers h3 none).1.entry [0, 0, 0, 0] = 3
    ∧ (attn3.qkvLayers h3 none).2.2.entry [0, 0, 0, 0] = 1
    ∧ (attn3.qkvLayers h3 (some h3)).1.entry [0, 0, 0, 0] = 1
    ∧ (attn3.qkvLayers h3 (some h3)).2.2.entry [0, 0, 0, 0] = 3
    ∧ ((3 : ℚ) ≠ 1) := by
  refine ⟨?_, ?_, ?_, ?_, by norm_num⟩ <;>
  simp +decide [DisentangledSelfAttention.qkvLayers,
    DisentangledSelfAttention.transpose_for_scores,
    DisentangledSelfAttention.linear, Linear.forward, Tensor.chunk,
    Tensor.slice, Tensor.view, Tensor.permute, Tensor.matmul, Tensor.tr,
    Tensor.transpose, Tensor.cat, catTwo, Tensor.ofFn, Tensor.entry,
    Tensor.size, shapeProd, flatIndex, unflatten, insertAt, removeAt,
    idxOfNat, swapIdx, resolveDim, resolveDimIns, resolveViewShape, bcIdx,
    bcDims, broadcastShapes, dimFromEnd, promoteKind, attn3, ws3, h3,
    Tensor.new, List.range_succ, List.getD, min_def, Int.toNat_natCast,
    Int.toNat_one, Int.toNat_zero,
    show Int.toNat 2 = 2 from rfl, show Int.toNat 3 = 3 from rfl,
    show Int.toNat 4 = 4 from rfl, show Int.toNat 6 = 6 from rfl,
    show ((6 : Nat) : Int) = 6 from rfl]
